import Mathlib

/-!
Verification of the Orbitron planet AI module.

The development shallowly embeds the planet decision engine of the
Orbitron repository: the message handlers implemented in
src/src/ai/orbitron.rs for the PlanetAI trait, together with the planet
configuration from src/src/lib.rs. Operations of the external
common_game crate (PlanetState, Generator, Combinator) are modelled from
the specification, since only their interfaces are visible from the
repository; each such definition is marked in its doc comment.
Logging and telemetry calls are side effects without influence on the
returned values and are omitted.
-/

/-- Basic resource kinds. Hydrogen and Oxygen are the ones this planet
enables; Carbon and Silicon stand for the remaining kinds of the
external crate, used to exercise the unsupported-type branches. -/
inductive BasicResourceType
  | Hydrogen
  | Oxygen
  | Carbon
  | Silicon
deriving DecidableEq, Repr

/-- Complex resource kinds, mirroring the variants matched in
handle_explorer_msg of src/src/ai/orbitron.rs. -/
inductive ComplexResourceType
  | Water
  | Diamond
  | Life
  | Robot
  | Dolphin
  | AIPartner
deriving DecidableEq, Repr

/-- A produced basic resource, carrying its kind. -/
structure BasicResource where
  rtype : BasicResourceType
deriving DecidableEq, Repr

/-- A produced complex resource, carrying its kind. -/
structure ComplexResource where
  ctype : ComplexResourceType
deriving DecidableEq, Repr

/-- Type-erased resource representation, target of to_generic. -/
inductive GenericResource
  | basic (r : BasicResource)
  | complex (r : ComplexResource)
deriving DecidableEq, Repr

/-- Conversion of a basic resource to the type-erased representation,
mirroring BasicResource::to_generic of the external crate. -/
def BasicResource.to_generic (r : BasicResource) : GenericResource :=
  .basic r

/-- An energy delivery event from the orchestrator. Its payload is
irrelevant to the engine. -/
structure Sunray
deriving DecidableEq, Repr

/-- Planet types of the external crate. The Orbitron planet is
constructed with type B (src/src/lib.rs line 49). -/
inductive PlanetType
  | A
  | B
  | C
  | D
deriving DecidableEq, Repr

/-- Modelled from the spec: planet type metadata determines whether
rocket construction is permitted. The repository tests assert that the
type B planet cannot have a rocket (src/src/lib.rs line 136). -/
def PlanetType.can_have_rocket : PlanetType → Bool
  | .B => false
  | _ => true

/-- A rocket artifact; the build call in the source passes the numeric
argument 0, retained here as a field. -/
structure Rocket where
  rid : Nat
deriving DecidableEq, Repr

/-- Modelled from the spec: the planet resource state owns an ordered
sequence of energy cells (true = charged), an optional rocket slot, and
immutable identity and type metadata. -/
structure PlanetState where
  id : Nat
  ptype : PlanetType
  cells : List Bool
  rocket : Option Rocket
deriving DecidableEq, Repr

/-- Modelled from the spec: whether the rocket slot is occupied. -/
def PlanetState.has_rocket (s : PlanetState) : Bool :=
  s.rocket.isSome

/-- Modelled from the spec: index of the first charged cell in sequence
order, if any (the full_cell lookup of the external crate). -/
def PlanetState.full_cell (s : PlanetState) : Option Nat :=
  s.cells.findIdx? (fun b => b)

/-- Modelled from the spec: consuming a charged cell turns it empty. -/
def PlanetState.consume_cell (s : PlanetState) (i : Nat) : PlanetState :=
  { s with cells := s.cells.set i false }

/-- Modelled from the spec: charging finds the first empty cell and
charges it, absorbing the sunray; if every cell is charged the sunray is
handed back, signalling rejection. -/
def PlanetState.charge_cell (s : PlanetState) (ray : Sunray) :
    Option Sunray × PlanetState :=
  match s.cells.findIdx? (fun b => !b) with
  | some i => (none, { s with cells := s.cells.set i true })
  | none => (some ray, s)

/-- Modelled from the spec: a build attempt fails when the planet type
forbids rockets or the slot is already occupied; otherwise it scans the
cells in index order for the first charged one, consumes its charge and
populates the rocket slot; with no charged cell it fails. -/
def PlanetState.build_rocket (s : PlanetState) (rid : Nat) :
    Except Unit PlanetState :=
  if s.ptype.can_have_rocket && !s.rocket.isSome then
    match s.cells.findIdx? (fun b => b) with
    | some i =>
        .ok { s with cells := s.cells.set i false, rocket := some ⟨rid⟩ }
    | none => .error ()
  else .error ()

/-- Modelled from the spec: taking the rocket transfers ownership out of
the state, leaving the slot empty. -/
def PlanetState.take_rocket (s : PlanetState) : Option Rocket × PlanetState :=
  (s.rocket, { s with rocket := none })

/-- The AI controller state: one boolean flag, as declared in
src/src/ai/orbitron.rs lines 83 to 85. -/
structure Orbitron where
  is_stopped : Bool
deriving DecidableEq, Repr

/-- Orbitron::new (src/src/ai/orbitron.rs lines 92 to 105): the AI
starts in the stopped state; the id argument is only logged. -/
def Orbitron.new (_id : Nat) : Orbitron :=
  { is_stopped := true }

/-- Orbitron::on_start (src/src/ai/orbitron.rs lines 430 to 444):
unconditionally clears the stopped flag. -/
def Orbitron.on_start (ai : Orbitron) : Orbitron :=
  { ai with is_stopped := false }

/-- Orbitron::on_stop (src/src/ai/orbitron.rs lines 450 to 463):
unconditionally sets the stopped flag. -/
def Orbitron.on_stop (ai : Orbitron) : Orbitron :=
  { ai with is_stopped := true }

/-- Orbitron::handle_asteroid (src/src/ai/orbitron.rs lines 361 to 406):
if no rocket is present, attempt a build (discarding the result), then
take whatever occupies the slot and return it with the new state. -/
def handle_asteroid (ai : Orbitron) (s : PlanetState) :
    Orbitron × Option Rocket × PlanetState :=
  (ai,
    let s1 := if s.has_rocket then s
      else
        match s.build_rocket 0 with
        | .ok s2 => s2
        | .error _ => s
    (s1.take_rocket.1, s1.take_rocket.2))

/-- The generator capability provider: immutable configuration of the
enabled basic-resource recipes. -/
structure Generator where
  recipes : List BasicResourceType
deriving DecidableEq, Repr

/-- Generator::all_available_recipes of the external crate: the
configured enabled generation set. -/
def Generator.all_available_recipes (g : Generator) : List BasicResourceType :=
  g.recipes

/-- Modelled from the spec: the hydrogen recipe succeeds exactly when
Hydrogen is in the enabled set, consuming the given charged cell. -/
def Generator.make_hydrogen (g : Generator) (s : PlanetState) (i : Nat) :
    Except Unit (BasicResource × PlanetState) :=
  if BasicResourceType.Hydrogen ∈ g.recipes then
    .ok (⟨.Hydrogen⟩, s.consume_cell i)
  else .error ()

/-- Modelled from the spec: the oxygen recipe succeeds exactly when
Oxygen is in the enabled set, consuming the given charged cell. -/
def Generator.make_oxygen (g : Generator) (s : PlanetState) (i : Nat) :
    Except Unit (BasicResource × PlanetState) :=
  if BasicResourceType.Oxygen ∈ g.recipes then
    .ok (⟨.Oxygen⟩, s.consume_cell i)
  else .error ()

/-- The combinator capability provider: immutable configuration of the
enabled complex-resource recipes. -/
structure Combinator where
  recipes : List ComplexResourceType
deriving DecidableEq, Repr

/-- Combinator::all_available_recipes of the external crate: the
configured enabled combination set. -/
def Combinator.all_available_recipes (c : Combinator) : List ComplexResourceType :=
  c.recipes

/-- Modelled from the spec: the water recipe succeeds exactly when Water
is in the enabled set, consuming the given charged cell; on failure the
reason and both unconsumed inputs are handed back. -/
def Combinator.make_water (c : Combinator) (r1 r2 : BasicResource)
    (s : PlanetState) (i : Nat) :
    Except (String × BasicResource × BasicResource) (ComplexResource × PlanetState) :=
  if ComplexResourceType.Water ∈ c.recipes then
    .ok (⟨.Water⟩, s.consume_cell i)
  else .error ("no Water recipe", r1, r2)

/-- A complex-resource combination request carrying its two input
resources, mirroring ComplexResourceRequest of the external crate. -/
inductive ComplexResourceRequest
  | Water (r1 r2 : BasicResource)
  | Diamond (r1 r2 : BasicResource)
  | Life (r1 r2 : BasicResource)
  | Robot (r1 r2 : BasicResource)
  | Dolphin (r1 r2 : BasicResource)
  | AIPartner (r1 r2 : BasicResource)
deriving DecidableEq, Repr

/-- Whether the request is the Water variant, the one recipe the planet
enables. -/
def ComplexResourceRequest.is_water : ComplexResourceRequest → Bool
  | .Water _ _ => true
  | _ => false

/-- The two input resources carried by a combination request. -/
def ComplexResourceRequest.inputs :
    ComplexResourceRequest → BasicResource × BasicResource
  | .Water r1 r2 => (r1, r2)
  | .Diamond r1 r2 => (r1, r2)
  | .Life r1 r2 => (r1, r2)
  | .Robot r1 r2 => (r1, r2)
  | .Dolphin r1 r2 => (r1, r2)
  | .AIPartner r1 r2 => (r1, r2)

/-- The variant name of a combination request, as produced by the debug
formatting used in the unsupported-recipe error message. -/
def ComplexResourceRequest.variant_name : ComplexResourceRequest → String
  | .Water _ _ => "Water"
  | .Diamond _ _ => "Diamond"
  | .Life _ _ => "Life"
  | .Robot _ _ => "Robot"
  | .Dolphin _ _ => "Dolphin"
  | .AIPartner _ _ => "AIPartner"

/-- Inbound messages from an explorer (protocols of the external
crate). -/
inductive ExplorerToPlanet
  | SupportedResourceRequest (explorer_id : Nat)
  | SupportedCombinationRequest (explorer_id : Nat)
  | GenerateResourceRequest (explorer_id : Nat) (resource : BasicResourceType)
  | CombineResourceRequest (explorer_id : Nat) (msg : ComplexResourceRequest)
  | AvailableEnergyCellRequest (explorer_id : Nat)
deriving DecidableEq, Repr

/-- Outcome of a combination request: a complex resource, or a reason
together with both inputs in type-erased form. -/
inductive CombineResult
  | ok (w : ComplexResource)
  | err (reason : String) (r1 r2 : GenericResource)
deriving DecidableEq, Repr

/-- Outbound responses to an explorer (protocols of the external
crate). -/
inductive PlanetToExplorer
  | SupportedResourceResponse (resource_list : List BasicResourceType)
  | SupportedCombinationResponse (combination_list : List ComplexResourceType)
  | GenerateResourceResponse (resource : Option BasicResource)
  | CombineResourceResponse (complex_response : CombineResult)
  | AvailableEnergyCellResponse (available_cells : Nat)
deriving DecidableEq, Repr

/-- The acknowledgement the engine sends to the orchestrator when a
sunray is rejected. -/
inductive PlanetToOrchestrator
  | SunrayAck (planet_id : Nat)
deriving DecidableEq, Repr

/-- Modelled from the spec: a detached snapshot of the externally
visible state, the DummyPlanetState of the external crate. -/
structure DummyPlanetState where
  id : Nat
  cells : List Bool
  has_rocket : Bool
deriving DecidableEq, Repr

/-- Modelled from the spec: snapshot of identity, per-cell charge status
and rocket presence. -/
def PlanetState.to_dummy (s : PlanetState) : DummyPlanetState :=
  { id := s.id, cells := s.cells, has_rocket := s.rocket.isSome }

/-- Orbitron::handle_sunray (src/src/ai/orbitron.rs lines 113 to 136):
delegates to charge_cell and only logs the outcome; the handler itself
returns no value. -/
def handle_sunray (ai : Orbitron) (s : PlanetState) (ray : Sunray) :
    Orbitron × PlanetState :=
  (ai, (s.charge_cell ray).2)

/-- Modelled from the spec: the engine replies with an acknowledgement
carrying the planet identity exactly when the sunray was rejected, that
is when charge_cell hands the sunray back. -/
def sunray_response (s : PlanetState) (ray : Sunray) :
    Option PlanetToOrchestrator :=
  match (s.charge_cell ray).1 with
  | some _ => some (.SunrayAck s.id)
  | none => none

/-- Orbitron::handle_internal_state_req (src/src/ai/orbitron.rs lines
141 to 162): returns the snapshot, mutating nothing. -/
def handle_internal_state_req (ai : Orbitron) (s : PlanetState) :
    Orbitron × DummyPlanetState × PlanetState :=
  (ai, s.to_dummy, s)

/-- Orbitron::handle_explorer_msg (src/src/ai/orbitron.rs lines 176 to
353): dispatch over the explorer message variants. -/
def handle_explorer_msg (ai : Orbitron) (s : PlanetState) (g : Generator)
    (c : Combinator) (msg : ExplorerToPlanet) :
    Orbitron × Option PlanetToExplorer × PlanetState :=
  (ai,
    match msg with
    | .SupportedResourceRequest _ =>
        (some (.SupportedResourceResponse g.all_available_recipes), s)
    | .SupportedCombinationRequest _ =>
        (some (.SupportedCombinationResponse c.all_available_recipes), s)
    | .GenerateResourceRequest _ r =>
        match s.full_cell with
        | none => (some (.GenerateResourceResponse none), s)
        | some i =>
            match r with
            | .Hydrogen =>
                match g.make_hydrogen s i with
                | .ok (b, s2) => (some (.GenerateResourceResponse (some b)), s2)
                | .error _ => (some (.GenerateResourceResponse none), s)
            | .Oxygen =>
                match g.make_oxygen s i with
                | .ok (b, s2) => (some (.GenerateResourceResponse (some b)), s2)
                | .error _ => (some (.GenerateResourceResponse none), s)
            | _ => (some (.GenerateResourceResponse none), s)
    | .CombineResourceRequest _ req =>
        match req with
        | .Water r1 r2 =>
            match s.full_cell with
            | some i =>
                match c.make_water r1 r2 s i with
                | .ok (w, s2) =>
                    (some (.CombineResourceResponse (.ok w)), s2)
                | .error (e, rr1, rr2) =>
                    (some (.CombineResourceResponse
                      (.err e rr1.to_generic rr2.to_generic)), s)
            | none =>
                (some (.CombineResourceResponse
                  (.err "No charged energy cell found"
                    r1.to_generic r2.to_generic)), s)
        | other =>
            (some (.CombineResourceResponse
              (.err ("There isn\x27t a recipe for " ++ other.variant_name)
                (other.inputs).1.to_generic (other.inputs).2.to_generic)), s)
    | .AvailableEnergyCellRequest _ =>
        (some (.AvailableEnergyCellResponse
          (s.cells.countP (fun b => b))), s))

/-- The planet type configured in create_planet
(src/src/lib.rs line 49). -/
def orbitron_planet_type : PlanetType := .B

/-- The generation rules configured in create_planet
(src/src/lib.rs line 51). -/
def gen_rules : List BasicResourceType := [.Hydrogen, .Oxygen]

/-- The combination rules configured in create_planet
(src/src/lib.rs line 53). -/
def comb_rules : List ComplexResourceType := [.Water]

/-- The generator of the Orbitron planet. -/
def orbitron_generator : Generator := { recipes := gen_rules }

/-- The combinator of the Orbitron planet. -/
def orbitron_combinator : Combinator := { recipes := comb_rules }

/-- C1: in handle_asteroid, when no rocket occupies the rocket slot and
the planet type permits rockets, the handler scans the cells in index
order for the first charged cell and attempts to build a rocket
consuming that cell; if no charged cell exists (the only way the build
attempt can fail here), the handler returns None and leaves the state
unchanged. -/
theorem handle_asteroid_build_path (ai : Orbitron) (s : PlanetState)
    (h1 : s.rocket = none) (h2 : s.ptype.can_have_rocket = true) :
    (∀ i, s.cells.findIdx? (fun b => b) = some i →
      handle_asteroid ai s =
        (ai, some ⟨0⟩, { s with cells := s.cells.set i false, rocket := none })) ∧
    (s.cells.findIdx? (fun b => b) = none →
      handle_asteroid ai s = (ai, none, s)) := by
  obtain ⟨pid, pt, cs, rk⟩ := s
  simp only at h1 h2
  subst h1
  constructor
  · intro i hi
    simp [handle_asteroid, PlanetState.has_rocket, PlanetState.build_rocket,
      PlanetState.take_rocket, h2, hi]
  · intro hn
    simp [handle_asteroid, PlanetState.has_rocket, PlanetState.build_rocket,
      PlanetState.take_rocket, h2, hn]

/-- Witness for C1 on a concrete two-cell state whose second cell is
charged: the rocket is built from that cell and returned, and the cell
is left empty. -/
theorem handle_asteroid_build_path_witness :
    handle_asteroid ⟨false⟩ ⟨5, .A, [false, true], none⟩ =
      (⟨false⟩, some ⟨0⟩, ⟨5, .A, [false, false], none⟩) := by
  have h := (handle_asteroid_build_path ⟨false⟩ ⟨5, .A, [false, true], none⟩
    rfl rfl).1 1 (by decide)
  simpa using h

/-- C3: for a planet of the configured Orbitron type (PlanetType B,
which cannot have a rocket), handle_asteroid returns None for every
cell-charge configuration and changes no cell. -/
theorem handle_asteroid_type_b (ai : Orbitron) (s : PlanetState)
    (h1 : s.ptype = orbitron_planet_type) (h2 : s.rocket = none) :
    handle_asteroid ai s = (ai, none, s) := by
  obtain ⟨pid, pt, cs, rk⟩ := s
  simp only at h1 h2
  subst h1
  subst h2
  simp [handle_asteroid, PlanetState.has_rocket, PlanetState.build_rocket,
    PlanetState.take_rocket, orbitron_planet_type, PlanetType.can_have_rocket]

/-- Witness for C3 on a concrete fully charged one-cell type B state. -/
theorem handle_asteroid_type_b_witness :
    handle_asteroid ⟨false⟩ ⟨7, .B, [true], none⟩ =
      (⟨false⟩, none, ⟨7, .B, [true], none⟩) :=
  handle_asteroid_type_b ⟨false⟩ ⟨7, .B, [true], none⟩ rfl rfl

/-- C4: if a rocket already occupies the rocket slot, handle_asteroid
takes and returns it, makes no new build attempt, and changes no cell:
the final state differs from the initial one only in the emptied rocket
slot. -/
theorem handle_asteroid_prebuilt (ai : Orbitron) (s : PlanetState)
    (r : Rocket) (h : s.rocket = some r) :
    handle_asteroid ai s = (ai, some r, { s with rocket := none }) := by
  obtain ⟨pid, pt, cs, rk⟩ := s
  simp only at h
  subst h
  simp [handle_asteroid, PlanetState.has_rocket, PlanetState.take_rocket]

/-- Witness for C4 on a concrete state holding a rocket and a charged
cell: the rocket is returned and the cell stays charged. -/
theorem handle_asteroid_prebuilt_witness :
    handle_asteroid ⟨true⟩ ⟨3, .A, [true], some ⟨9⟩⟩ =
      (⟨true⟩, some ⟨9⟩, ⟨3, .A, [true], none⟩) := by
  have h := handle_asteroid_prebuilt ⟨true⟩ ⟨3, .A, [true], some ⟨9⟩⟩ ⟨9⟩ rfl
  simpa using h

/-- C2: for every sunray delivery, if an empty cell exists the first one
is charged and the engine produces no response; if no empty cell exists
the cell states are unchanged and the engine replies with a SunrayAck
carrying the planet identity. -/
theorem sunray_spec (ai : Orbitron) (s : PlanetState) (ray : Sunray) :
    (∀ i, s.cells.findIdx? (fun b => !b) = some i →
      handle_sunray ai s ray = (ai, { s with cells := s.cells.set i true }) ∧
      sunray_response s ray = none) ∧
    (s.cells.findIdx? (fun b => !b) = none →
      handle_sunray ai s ray = (ai, s) ∧
      sunray_response s ray = some (.SunrayAck s.id)) := by
  constructor
  · intro i hi
    constructor <;>
      simp [handle_sunray, sunray_response, PlanetState.charge_cell, hi]
  · intro hn
    constructor <;>
      simp [handle_sunray, sunray_response, PlanetState.charge_cell, hn]

/-- Witness for C2 on a concrete one-cell empty state: the cell is
charged and no acknowledgement is produced. -/
theorem sunray_spec_witness :
    handle_sunray ⟨true⟩ ⟨2, .B, [false], none⟩ ⟨⟩ =
      (⟨true⟩, ⟨2, .B, [true], none⟩) ∧
    sunray_response ⟨2, .B, [false], none⟩ ⟨⟩ = none := by
  have h := (sunray_spec ⟨true⟩ ⟨2, .B, [false], none⟩ ⟨⟩).1 0 (by decide)
  simpa using h

/-- C5: a CombineResourceRequest for the Water recipe made when no
charged cell exists fails with the no-charged-cell reason, hands back
both inputs in type-erased form, never invokes the combinator (the
outcome is the same for every combinator), and mutates no cell. -/
theorem combine_water_no_cell (ai : Orbitron) (s : PlanetState)
    (g : Generator) (c : Combinator) (eid : Nat) (r1 r2 : BasicResource)
    (h : s.full_cell = none) :
    handle_explorer_msg ai s g c
        (.CombineResourceRequest eid (.Water r1 r2)) =
      (ai, some (.CombineResourceResponse
        (.err "No charged energy cell found" r1.to_generic r2.to_generic)), s) := by
  simp [handle_explorer_msg, h]

/-- Witness for C5 on a concrete one-cell empty state. -/
theorem combine_water_no_cell_witness :
    handle_explorer_msg ⟨false⟩ ⟨1, .B, [false], none⟩ orbitron_generator
        orbitron_combinator
        (.CombineResourceRequest 4 (.Water ⟨.Hydrogen⟩ ⟨.Oxygen⟩)) =
      (⟨false⟩, some (.CombineResourceResponse
        (.err "No charged energy cell found"
          (.basic ⟨.Hydrogen⟩) (.basic ⟨.Oxygen⟩))), ⟨1, .B, [false], none⟩) := by
  have h := combine_water_no_cell ⟨false⟩ ⟨1, .B, [false], none⟩
    orbitron_generator orbitron_combinator 4 ⟨.Hydrogen⟩ ⟨.Oxygen⟩ (by decide)
  simpa [BasicResource.to_generic] using h

/-- C6: a CombineResourceRequest whose requested complex type is not the
Water recipe fails immediately, independently of the cell configuration
and of the combinator, with a reason naming the unsupported variant, and
hands back both inputs in type-erased form with no cell mutated. -/
theorem combine_unsupported (ai : Orbitron) (s : PlanetState)
    (g : Generator) (c : Combinator) (eid : Nat)
    (req : ComplexResourceRequest) (h : req.is_water = false) :
    handle_explorer_msg ai s g c (.CombineResourceRequest eid req) =
      (ai, some (.CombineResourceResponse
        (.err ("There isn\x27t a recipe for " ++ req.variant_name)
          (req.inputs).1.to_generic (req.inputs).2.to_generic)), s) := by
  cases req <;>
    simp_all [handle_explorer_msg, ComplexResourceRequest.is_water,
      ComplexResourceRequest.variant_name, ComplexResourceRequest.inputs]

/-- Witness for C6: a Diamond request on a charged one-cell state fails
naming Diamond, returning both inputs, with the cell untouched. -/
theorem combine_unsupported_witness :
    handle_explorer_msg ⟨false⟩ ⟨1, .B, [true], none⟩ orbitron_generator
        orbitron_combinator
        (.CombineResourceRequest 4 (.Diamond ⟨.Carbon⟩ ⟨.Carbon⟩)) =
      (⟨false⟩, some (.CombineResourceResponse
        (.err "There isn\x27t a recipe for Diamond"
          (.basic ⟨.Carbon⟩) (.basic ⟨.Carbon⟩))), ⟨1, .B, [true], none⟩) := by
  have h := combine_unsupported ⟨false⟩ ⟨1, .B, [true], none⟩
    orbitron_generator orbitron_combinator 4 (.Diamond ⟨.Carbon⟩ ⟨.Carbon⟩) rfl
  simpa [ComplexResourceRequest.variant_name, ComplexResourceRequest.inputs,
    BasicResource.to_generic] using h

/-- C7: for a GenerateResourceRequest against the configured Orbitron
generator: with no charged cell the result is absent and nothing is
mutated; with a charged cell but a type outside the enabled set
(Hydrogen and Oxygen) the result is absent and the cell is not consumed;
with a charged cell and an enabled type the produced resource is
returned and the located cell is consumed. -/
theorem generate_resource_spec (ai : Orbitron) (s : PlanetState)
    (c : Combinator) (eid : Nat) (r : BasicResourceType) :
    (s.full_cell = none →
      handle_explorer_msg ai s orbitron_generator c
          (.GenerateResourceRequest eid r) =
        (ai, some (.GenerateResourceResponse none), s)) ∧
    (∀ i, s.full_cell = some i → r ≠ .Hydrogen → r ≠ .Oxygen →
      handle_explorer_msg ai s orbitron_generator c
          (.GenerateResourceRequest eid r) =
        (ai, some (.GenerateResourceResponse none), s)) ∧
    (∀ i, s.full_cell = some i → (r = .Hydrogen ∨ r = .Oxygen) →
      handle_explorer_msg ai s orbitron_generator c
          (.GenerateResourceRequest eid r) =
        (ai, some (.GenerateResourceResponse (some ⟨r⟩)), s.consume_cell i)) := by
  refine ⟨?_, ?_, ?_⟩
  · intro h
    simp [handle_explorer_msg, h]
  · intro i hi hH hO
    cases r <;> simp_all [handle_explorer_msg]
  · intro i hi hr
    rcases hr with h | h <;> subst h <;>
      simp [handle_explorer_msg, hi, Generator.make_hydrogen,
        Generator.make_oxygen, orbitron_generator, gen_rules]

/-- Witness for C7: generating Hydrogen from a charged one-cell state
yields the resource and empties the cell. -/
theorem generate_resource_spec_witness :
    handle_explorer_msg ⟨false⟩ ⟨1, .B, [true], none⟩ orbitron_generator
        orbitron_combinator (.GenerateResourceRequest 2 .Hydrogen) =
      (⟨false⟩, some (.GenerateResourceResponse (some ⟨.Hydrogen⟩)),
        ⟨1, .B, [false], none⟩) := by
  have h := (generate_resource_spec ⟨false⟩ ⟨1, .B, [true], none⟩
    orbitron_combinator 2 .Hydrogen).2.2 0 (by decide) (Or.inl rfl)
  simpa [PlanetState.consume_cell] using h

/-- C8: the supported-resource and supported-combination requests are
answered with exactly the configured enabled recipe sets of the
generator and combinator, for every cell-charge state and with no
mutation. -/
theorem supported_requests_spec (ai : Orbitron) (s : PlanetState)
    (g : Generator) (c : Combinator) (e1 e2 : Nat) :
    handle_explorer_msg ai s g c (.SupportedResourceRequest e1) =
      (ai, some (.SupportedResourceResponse g.all_available_recipes), s) ∧
    handle_explorer_msg ai s g c (.SupportedCombinationRequest e2) =
      (ai, some (.SupportedCombinationResponse c.all_available_recipes), s) :=
  ⟨rfl, rfl⟩

/-- C9: the lifecycle flag starts stopped at construction, a start
signal makes it running and a stop signal makes it stopped, both
transitions are idempotent, and no message handler mutates the flag. -/
theorem lifecycle_flag_spec :
    (∀ n, (Orbitron.new n).is_stopped = true) ∧
    (∀ ai : Orbitron, ai.on_start.is_stopped = false) ∧
    (∀ ai : Orbitron, ai.on_stop.is_stopped = true) ∧
    (∀ ai : Orbitron, ai.on_start.on_start = ai.on_start) ∧
    (∀ ai : Orbitron, ai.on_stop.on_stop = ai.on_stop) ∧
    (∀ ai s ray, (handle_sunray ai s ray).1 = ai) ∧
    (∀ ai s, (handle_internal_state_req ai s).1 = ai) ∧
    (∀ ai s g c m, (handle_explorer_msg ai s g c m).1 = ai) ∧
    (∀ ai s, (handle_asteroid ai s).1 = ai) := by
  refine ⟨fun _ => rfl, fun _ => rfl, fun _ => rfl, fun _ => rfl,
    fun _ => rfl, fun _ _ _ => rfl, fun _ _ => rfl,
    fun _ _ _ _ _ => rfl, fun _ _ => rfl⟩

/-- C10: no message handler consults the lifecycle flag: every handler
produces the same response and final planet state whether the flag is
set or cleared. -/
theorem handlers_ignore_lifecycle_flag (b1 b2 : Bool) (s : PlanetState)
    (g : Generator) (c : Combinator) (ray : Sunray)
    (m : ExplorerToPlanet) :
    (handle_sunray ⟨b1⟩ s ray).2 = (handle_sunray ⟨b2⟩ s ray).2 ∧
    (handle_internal_state_req ⟨b1⟩ s).2 =
      (handle_internal_state_req ⟨b2⟩ s).2 ∧
    (handle_explorer_msg ⟨b1⟩ s g c m).2 =
      (handle_explorer_msg ⟨b2⟩ s g c m).2 ∧
    (handle_asteroid ⟨b1⟩ s).2 = (handle_asteroid ⟨b2⟩ s).2 :=
  ⟨rfl, rfl, rfl, rfl⟩
